import Mathlib

/-!
Verification of the poker-agent frontend (TypeScript) against its design
specification.  The definitions below are a shallow embedding of the source
files: each Lean definition mirrors one function or type of the repository.
JavaScript numbers are modelled as `Int` (typed user input as `ℚ`, floored
where the source floors), promise settlement / timer effects are made
explicit as returned operation traces, and rendered JSX is modelled as a
markup tree.
-/

namespace PokerAgent

/-- Source `Street` union type of src/frontend/src/types/game.ts. -/
inductive Street where
  | preflop | flop | turn | river | showdown
  deriving DecidableEq, Repr

/-- Source `ActionType` union type of src/frontend/src/types/game.ts. -/
inductive ActionType where
  | fold | check | call | bet | raise | all_in
  deriving DecidableEq, Repr

/-- The `"human" | "opponent"` id union of `PlayerState`. -/
inductive PlayerId where
  | human | opponent
  deriving DecidableEq, Repr

/-- The `"human" | "opponent" | "system"` actor union of `ReplayEvent`. -/
inductive Actor where
  | human | opponent | system
  deriving DecidableEq, Repr

/-- The session `status` union of `SessionState`. -/
inductive SessionStatus where
  | in_progress | hand_complete | session_complete
  deriving DecidableEq, Repr

/-- Source `LegalAction` of src/frontend/src/types/game.ts; optional fields are `Option`. -/
structure LegalAction where
  type : ActionType
  minAmount : Option Int := none
  maxAmount : Option Int := none
  toCall : Option Int := none
  deriving DecidableEq, Repr

/-- Source `PlayerState` of src/frontend/src/types/game.ts. -/
structure PlayerState where
  id : PlayerId
  name : String
  stack : Int
  isButton : Bool
  holeCards : List String
  cardsVisible : Bool
  deriving DecidableEq, Repr

/-- The `Record<"human" | "opponent", number>` stacks snapshot of `ReplayEvent`. -/
structure StackPair where
  human : Int
  opponent : Int
  deriving DecidableEq, Repr

/-- The `Record<"human" | "opponent", boolean>` visibility snapshot of `ReplayEvent`. -/
structure VisPair where
  human : Bool
  opponent : Bool
  deriving DecidableEq, Repr

/-- Source `ReplayEvent` of src/frontend/src/types/game.ts. -/
structure ReplayEvent where
  id : String
  timestamp : String
  street : Street
  actor : Actor
  action : String
  amount : Option Int := none
  pot : Int
  board : List String
  -- source field name: `stacks` (that word is a reserved token in this Lean environment)
  snapStacks : StackPair
  holeCardVisibility : VisPair
  deriving DecidableEq, Repr

/-- The `players` record of `SessionState`. -/
structure Players where
  human : PlayerState
  opponent : PlayerState
  deriving DecidableEq, Repr

/-- Source `SessionState` of src/frontend/src/types/game.ts. -/
structure SessionState where
  sessionId : String
  handId : String
  street : Street
  smallBlind : Int
  bigBlind : Int
  pot : Int
  board : List String
  players : Players
  legalActions : List LegalAction
  actionFeed : List ReplayEvent
  status : SessionStatus
  deriving DecidableEq, Repr

/-! ### API client (src/frontend/src/api/client.ts) -/

/-- The `name` assigned by the `ApiError` constructor. -/
def apiErrorName : String := "ApiError"

/-- Source `ApiError` of client.ts: an `Error` subclass carrying a numeric `status`. -/
structure ApiError where
  name : String
  message : String
  status : Int
  deriving DecidableEq, Repr

/-- The `ApiError` constructor: `super(message); this.name = "ApiError"; this.status = status`. -/
def mkApiError (message : String) (status : Int) : ApiError :=
  { name := apiErrorName, message := message, status := status }

/-- The `fetch` response as `PokerApiClient.request` observes it: the `ok`
flag, the numeric `status`, and the parsed JSON `body` (abstracted as `T`). -/
structure HttpResponse (T : Type) where
  ok : Bool
  status : Int
  body : T

/-- Source `PokerApiClient.request`: throws `ApiError` with the response status when
`response.ok` is false, otherwise returns the parsed JSON body. -/
def request {T : Type} (resp : HttpResponse T) : Except ApiError T :=
  if resp.ok = false then
    Except.error (mkApiError (("API request failed (") ++ toString resp.status ++ (")")) resp.status)
  else
    Except.ok resp.body

/-- The parsed `SocketMessage` shape of client.ts (every field of the cast
may be absent at runtime except that `type` compares against `"error"`). -/
structure SocketMessage where
  type : String
  requestId : Option String := none
  payload : Option String := none
  status : Option Int := none
  message : Option String := none
  deriving DecidableEq, Repr

/-- The raw websocket `event.data` as `handleMessage` receives it: a
non-string payload, a string that fails `JSON.parse`, or a parsed message. -/
inductive RawMessage where
  | notString
  | unparseable
  | parsed (msg : SocketMessage)
  deriving DecidableEq, Repr

/-- Observable effects of the socket methods, in program order: map
deletion, `clearTimeout`, promise resolution/rejection, `socket.close()`. -/
inductive SocketOp where
  | pendingDelete (requestId : String)
  | timeoutClear (timeoutId : Nat)
  | promiseResolve (requestId : String) (payload : Option String)
  | promiseReject (requestId : String) (message : String) (status : Int)
  | socketClose
  deriving DecidableEq, Repr

/-- The `pending` map of `PokerSessionSocket`: request id to the pending
request's `timeoutId` (the resolve/reject callbacks are the trace ops). -/
abbrev PendingMap := List (String × Nat)

/-- Source `Map.get` on the pending map. -/
def lookupPending (st : PendingMap) (rid : String) : Option Nat :=
  (st.find? (fun e => e.fst == rid)).map Prod.snd

/-- Source `Map.delete` on the pending map (removes the entry for the key). -/
def erasePending (st : PendingMap) (rid : String) : PendingMap :=
  st.eraseP (fun e => e.fst == rid)

/-- Source `PokerSessionSocket.handleMessage`.  Returns the updated pending map and
the trace of effects.  `if (!requestId)` treats both a missing and an empty
request id as falsy; `parsed.status ?? 500` and
`parsed.message ?? "WebSocket request failed."` are the JS defaults. -/
def handleMessage (st : PendingMap) (raw : RawMessage) : PendingMap × List SocketOp :=
  match raw with
  | RawMessage.notString => (st, [])
  | RawMessage.unparseable => (st, [])
  | RawMessage.parsed m =>
    match m.requestId with
    | none => (st, [])
    | some rid =>
      if rid = ("") then (st, [])
      else
        match lookupPending st rid with
        | none => (st, [])
        | some tid =>
          let st1 := erasePending st rid
          if m.type = ("error") then
            (st1, [SocketOp.pendingDelete rid, SocketOp.timeoutClear tid,
                   SocketOp.promiseReject rid (m.message.getD ("WebSocket request failed.")) (m.status.getD 500)])
          else
            (st1, [SocketOp.pendingDelete rid, SocketOp.timeoutClear tid,
                   SocketOp.promiseResolve rid m.payload])

/-- Source `PokerSessionSocket.rejectAllPending`: for each pending entry, delete it
from the map, clear its timeout, and reject its promise with `error`. -/
def rejectAllPending (st : PendingMap) (message : String) (status : Int) :
    PendingMap × List SocketOp :=
  match st with
  | [] => ([], [])
  | e :: rest =>
    let r := rejectAllPending rest message status
    (r.fst, SocketOp.pendingDelete e.fst :: SocketOp.timeoutClear e.snd ::
            SocketOp.promiseReject e.fst message status :: r.snd)

/-- The constructor's `close` listener:
`rejectAllPending(new ApiError("WebSocket disconnected.", 0))`. -/
def onSocketClose (st : PendingMap) : PendingMap × List SocketOp :=
  rejectAllPending st ("WebSocket disconnected.") 0

/-- Source `PokerSessionSocket.close`: rejects all pending requests with
`new ApiError("WebSocket closed.", 0)` and then closes the socket. -/
def closeSocket (st : PendingMap) : PendingMap × List SocketOp :=
  let r := rejectAllPending st ("WebSocket closed.") 0
  (r.fst, r.snd ++ [SocketOp.socketClose])

/-- The request id settled by a trace operation, when it settles one. -/
def settleId : SocketOp → Option String
  | SocketOp.promiseResolve rid _ => some rid
  | SocketOp.promiseReject rid _ _ => some rid
  | _ => none

/-- All request ids settled (resolved or rejected) by a trace. -/
def settledIds (ops : List SocketOp) : List String :=
  ops.filterMap settleId

/-! ### Mock session engine (src/mock/mockData.ts) -/

/-- The wire string of an `ActionType`, as stored in `ReplayEvent.action`. -/
def actionTypeStr : ActionType → String
  | ActionType.fold => "fold"
  | ActionType.check => "check"
  | ActionType.call => "call"
  | ActionType.bet => "bet"
  | ActionType.raise => "raise"
  | ActionType.all_in => "all_in"

/-- Event id generator: the template `` `evt-${n}` ``. -/
def evtId (n : Nat) : String := ("evt-") ++ toString n

/-- Source `actionCost` of mockData.ts: fold/check cost nothing, otherwise
`Math.max(0, Math.floor(amount ?? 0))`.  On the `Int` model `Math.floor`
is the identity. -/
def actionCost (actionType : ActionType) (amount : Option Int) : Int :=
  if actionType = ActionType.fold ∨ actionType = ActionType.check then 0
  else max 0 (amount.getD 0)

/-- Source `pickMockOpponentAction` of mockData.ts: a deterministic choice driven
only by the current pot size and the opponent stack. -/
def pickMockOpponentAction (state : SessionState) : ActionType × Option Int :=
  if state.status ≠ SessionStatus.in_progress then (ActionType.check, none)
  else if state.pot ≤ 20 then (ActionType.check, none)
  else if state.pot ≤ 40 then (ActionType.call, some 4)
  else (ActionType.all_in, some (min 36 state.players.opponent.stack))

/-- The fixed board installed by the mock showdown branch. -/
def showdownBoard : List String := ["Qs", "7d", "2c", "9s", "Ac"]

/-- Source `applyMockAction` of mockData.ts.  The deep copy
(`JSON.parse(JSON.stringify(state))`) is the identity on the value model;
`new Date().toISOString()` is the threaded `now` argument. -/
def applyMockAction (state : SessionState) (actionType : ActionType) (amount : Option Int)
    (now : String) : SessionState :=
  if state.status ≠ SessionStatus.in_progress then state
  else
    let humanCost := min (actionCost actionType amount) state.players.human.stack
    let humanStack := state.players.human.stack - humanCost
    let pot1 := state.pot + humanCost
    let humanEvent : ReplayEvent :=
      { id := evtId (state.actionFeed.length + 1)
        timestamp := now
        street := state.street
        actor := Actor.human
        action := actionTypeStr actionType
        amount := if humanCost > 0 then some humanCost else none
        pot := pot1
        board := state.board
        snapStacks := { human := humanStack, opponent := state.players.opponent.stack }
        holeCardVisibility := { human := true, opponent := state.players.opponent.cardsVisible } }
    let feed1 := state.actionFeed ++ [humanEvent]
    if actionType = ActionType.fold then
      { state with
        status := SessionStatus.hand_complete
        players :=
          { human := { state.players.human with stack := humanStack }
            opponent := { state.players.opponent with cardsVisible := true } }
        pot := pot1
        legalActions := []
        actionFeed := feed1 ++
          [{ id := evtId (feed1.length + 1)
             timestamp := now
             street := state.street
             actor := Actor.system
             action := "Opponent wins after fold."
             amount := none
             pot := pot1
             board := state.board
             snapStacks := { human := humanStack, opponent := state.players.opponent.stack }
             holeCardVisibility := { human := true, opponent := true } }] }
    else
      let next1 : SessionState :=
        { state with
          players := { state.players with human := { state.players.human with stack := humanStack } }
          pot := pot1
          actionFeed := feed1 }
      let bot := pickMockOpponentAction next1
      let botCost := min (actionCost bot.fst bot.snd) next1.players.opponent.stack
      let oppStack := next1.players.opponent.stack - botCost
      let pot2 := pot1 + botCost
      let botEvent : ReplayEvent :=
        { id := evtId (feed1.length + 1)
          timestamp := now
          street := state.street
          actor := Actor.opponent
          action := actionTypeStr bot.fst
          amount := if botCost > 0 then some botCost else none
          pot := pot2
          board := state.board
          snapStacks := { human := humanStack, opponent := oppStack }
          holeCardVisibility := { human := true, opponent := false } }
      let feed2 := feed1 ++ [botEvent]
      let next2 : SessionState :=
        { next1 with
          players :=
            { human := { state.players.human with stack := humanStack }
              opponent := { state.players.opponent with stack := oppStack } }
          pot := pot2
          actionFeed := feed2 }
      if actionType = ActionType.all_in ∨ bot.fst = ActionType.all_in then
        { next2 with
          status := SessionStatus.hand_complete
          street := Street.showdown
          board := showdownBoard
          players :=
            { human := { state.players.human with stack := humanStack }
              opponent := { state.players.opponent with stack := oppStack, cardsVisible := true } }
          legalActions := []
          actionFeed := feed2 ++
            [{ id := evtId (feed2.length + 1)
               timestamp := now
               street := Street.showdown
               actor := Actor.system
               action := "Showdown reached."
               amount := none
               pot := pot2
               board := showdownBoard
               snapStacks := { human := humanStack, opponent := oppStack }
               holeCardVisibility := { human := true, opponent := true } }] }
      else next2

/-- Source `buildInitialMockState` of mockData.ts.  `isoPlus` models `nowIsoPlus`
(a timestamp `seconds` away from now, only ever compared opaquely). -/
def buildInitialMockState (isoPlus : Int → String) : SessionState :=
  { sessionId := "mock-session-001"
    handId := "hand-001"
    street := Street.flop
    smallBlind := 1
    bigBlind := 2
    pot := 13
    board := ["Qs", "7d", "2c"]
    players :=
      { human :=
          { id := PlayerId.human
            name := "You"
            stack := 193
            isButton := true
            holeCards := ["Ah", "Jh"]
            cardsVisible := true }
        opponent :=
          { id := PlayerId.opponent
            name := "LLM Bot"
            stack := 194
            isButton := false
            holeCards := ["Kd", "9c"]
            cardsVisible := false } }
    legalActions :=
      [{ type := ActionType.fold },
       { type := ActionType.check },
       { type := ActionType.bet, minAmount := some 2, maxAmount := some 193 },
       { type := ActionType.all_in, minAmount := some 193, maxAmount := some 193 }]
    actionFeed :=
      [{ id := "evt-001"
         timestamp := isoPlus (-45)
         street := Street.preflop
         actor := Actor.system
         action := "Hand started. Blinds posted 1/2."
         amount := none
         pot := 3
         board := []
         snapStacks := { human := 199, opponent := 198 }
         holeCardVisibility := { human := true, opponent := false } },
       { id := "evt-002"
         timestamp := isoPlus (-42)
         street := Street.preflop
         actor := Actor.human
         action := "raise"
         amount := some 6
         pot := 9
         board := []
         snapStacks := { human := 193, opponent := 198 }
         holeCardVisibility := { human := true, opponent := false } },
       { id := "evt-003"
         timestamp := isoPlus (-40)
         street := Street.preflop
         actor := Actor.opponent
         action := "call"
         amount := some 4
         pot := 13
         board := []
         snapStacks := { human := 193, opponent := 194 }
         holeCardVisibility := { human := true, opponent := false } },
       { id := "evt-004"
         timestamp := isoPlus (-36)
         street := Street.flop
         actor := Actor.system
         action := "Flop dealt."
         amount := none
         pot := 13
         board := ["Qs", "7d", "2c"]
         snapStacks := { human := 193, opponent := 194 }
         holeCardVisibility := { human := true, opponent := false } }]
    status := SessionStatus.in_progress }

/-- Source `String.prototype.padStart(width, ch)`. -/
def padStart (width : Nat) (ch : Char) (s : String) : String :=
  if s.length ≥ width then s else String.mk (List.replicate (width - s.length) ch) ++ s

/-- Source `Number.parseInt(s, 10)` for the nonnegative decimal hand-number strings
used here; `none` models `NaN` (no leading digits). -/
def parseIntDec (s : String) : Option Nat :=
  (s.takeWhile Char.isDigit).toNat?

/-- The hand-id computation of `createNextMockHand`:
`` `hand-${(parseInt(handId.split("-")[1] ?? "1", 10) + 1).toString().padStart(3, "0")}` ``
(`NaN.toString()`, which `padStart` leaves unchanged, prints as `"NaN"`). -/
def nextHandIdStr (handId : String) : String :=
  let pieces := handId.splitOn ("-")
  let raw := (pieces.get? 1).getD ("1")
  match parseIntDec raw with
  | some n => ("hand-") ++ padStart 3 '0' (toString (n + 1))
  | none => ("hand-") ++ ("NaN")

/-- Source `createNextMockHand` of mockData.ts.  `now` models
`new Date().toISOString()`. -/
def createNextMockHand (state : SessionState) (now : String) : SessionState :=
  { sessionId := state.sessionId
    handId := nextHandIdStr state.handId
    street := Street.preflop
    smallBlind := state.smallBlind
    bigBlind := state.bigBlind
    pot := 3
    board := []
    players :=
      { human :=
          { state.players.human with
            stack := max 80 state.players.human.stack
            holeCards := ["9h", "9d"]
            isButton := !state.players.human.isButton
            cardsVisible := true }
        opponent :=
          { state.players.opponent with
            stack := max 80 state.players.opponent.stack
            holeCards := ["As", "Qc"]
            isButton := !state.players.opponent.isButton
            cardsVisible := false } }
    legalActions :=
      [{ type := ActionType.fold },
       { type := ActionType.call, toCall := some 1 },
       { type := ActionType.raise, minAmount := some 4,
         maxAmount := some (max 80 state.players.human.stack) }]
    actionFeed :=
      [{ id := "evt-001"
         timestamp := now
         street := Street.preflop
         actor := Actor.system
         action := "New hand started. Blinds posted 1/2."
         amount := none
         pot := 3
         board := []
         snapStacks :=
           { human := max 80 state.players.human.stack -
               (if state.players.human.isButton then 2 else 1)
             opponent := max 80 state.players.opponent.stack -
               (if state.players.opponent.isButton then 2 else 1) }
         holeCardVisibility := { human := true, opponent := false } }]
    status := SessionStatus.in_progress }

/-- The total of chips visible in a session state: both stacks plus the pot. -/
def chipTotal (s : SessionState) : Int :=
  s.players.human.stack + s.players.opponent.stack + s.pot

/-! ### Rendered markup (PixelCard.tsx, PlayerPanel.tsx, App.tsx) -/

/-- Rendered JSX, abstracted as a tree of tagged nodes with attributes. -/
inductive Markup where
  | text (s : String)
  | node (tag : String) (attrs : List (String × String)) (children : List Markup)

/-- The `size` prop of `PixelCard`. -/
inductive CardSize where
  | sm | md
  deriving DecidableEq, Repr

/-- Source `splitCard` of PixelCard.tsx: default card `"??"`; short strings give
`{rank: "?", suit: "?"}`, otherwise uppercase rank prefix / lowercase last
character. -/
def splitCard (card : Option String) : String × String :=
  let c := card.getD ("??")
  if c.length < 2 then (("?"), ("?"))
  else (String.toUpper (c.dropRight 1), String.toLower (c.takeRight 1))

/-- Source `suitToGlyph` of PixelCard.tsx. -/
def suitToGlyph (suit : String) : String :=
  if suit = ("h") then ("H")
  else if suit = ("d") then ("D")
  else if suit = ("c") then ("C")
  else if suit = ("s") then ("S")
  else ("?")

/-- Source `RED_SUITS.has(suit)` of PixelCard.tsx. -/
def isRedSuit (suit : String) : Bool :=
  suit == ("h") || suit == ("d")

/-- The `--card-scale` style value of `PixelCard`. -/
def cardScaleValue (size : CardSize) : String :=
  if size = CardSize.sm then ("0.85") else ("1")

/-- Source `PixelCard` of src/frontend/src/components/PixelCard.tsx: the hidden
branch renders the card back and never reads the card value. -/
def pixelCard (card : Option String) (hidden : Bool) (size : CardSize) : Markup :=
  let rs := splitCard card
  if hidden then
    Markup.node ("div")
      [("className", "pixel-card pixel-card-hidden"),
       ("--card-scale", cardScaleValue size),
       ("aria-label", "Hidden card")]
      [Markup.node ("div") [("className", "pixel-card-back-grid")] []]
  else
    Markup.node ("div")
      [("className", "pixel-card"),
       ("--card-scale", cardScaleValue size),
       ("aria-label", ("Card ") ++ rs.fst ++ String.toUpper rs.snd)]
      [Markup.node ("span")
         [("className", ("pixel-card-rank ") ++ (if isRedSuit rs.snd then ("is-red") else ("")))]
         [Markup.text rs.fst],
       Markup.node ("span")
         [("className", ("pixel-card-suit ") ++ (if isRedSuit rs.snd then ("is-red") else ("")))]
         [Markup.text (suitToGlyph rs.snd)]]

/-- The markup of the hidden branch of `PixelCard`, as a standalone value:
it depends only on the size, never on the card. -/
def hiddenCardMarkup (size : CardSize) : Markup :=
  Markup.node ("div")
    [("className", "pixel-card pixel-card-hidden"),
     ("--card-scale", cardScaleValue size),
     ("aria-label", "Hidden card")]
    [Markup.node ("div") [("className", "pixel-card-back-grid")] []]

/-- The `data-role` string of a player id. -/
def playerIdStr : PlayerId → String
  | PlayerId.human => "human"
  | PlayerId.opponent => "opponent"

/-- Source `PlayerPanel` of src/frontend/src/components/PlayerPanel.tsx. -/
def playerPanel (player : PlayerState) (roleLabel : String) (revealCards : Bool) : Markup :=
  Markup.node ("section")
    [("className", "pixel-panel player-panel stagger-pop"),
     ("data-role", playerIdStr player.id)]
    [Markup.node ("div") [("className", "player-header")]
      ([Markup.node ("div") [("className", "player-meta")]
          [Markup.node ("div") [("className", "player-name-line")]
             [Markup.node ("span") [("className", "player-role")] [Markup.text roleLabel],
              Markup.node ("h2") [("className", "pixel-title-sm")] [Markup.text player.name]],
           Markup.node ("div") [("className", "chip-stack")]
             [Markup.node ("img") [("className", "pixel-icon")] [],
              Markup.node ("span") [] [Markup.text (toString player.stack ++ (" chips"))]]]] ++
       (if player.isButton then
          [Markup.node ("span") [("className", "dealer-medallion")] [Markup.text ("D")]]
        else [])),
     Markup.node ("div") [("className", "card-row")]
       [pixelCard (player.holeCards.get? 0) (!revealCards) CardSize.sm,
        pixelCard (player.holeCards.get? 1) (!revealCards) CardSize.sm],
     Markup.node ("div") [("className", "player-footer")]
       [Markup.node ("img") [("className", "pixel-icon")] [],
        Markup.node ("span") []
          [Markup.text (if player.cardsVisible || revealCards then ("Cards shown") else ("Cards hidden"))]]]

/-- Source `showNextHand` of App.tsx. -/
def showNextHand (s : SessionState) : Bool :=
  s.status = SessionStatus.hand_complete ∨ s.status = SessionStatus.session_complete

/-- Source `opponentVisible` of App.tsx. -/
def opponentVisible (s : SessionState) : Bool :=
  s.players.opponent.cardsVisible || (s.street = Street.showdown : Bool) || showNextHand s

/-- The opponent panel App.tsx renders:
`<PlayerPanel player={session.players.opponent} roleLabel="Opponent" revealCards={opponentVisible} />`. -/
def appOpponentPanel (s : SessionState) : Markup :=
  playerPanel s.players.opponent ("Opponent") (opponentVisible s)

/-- Replaces only the opponent's hole cards of a session state (the
quantification device for the non-interference statement). -/
def withOpponentHoleCards (s : SessionState) (cards : List String) : SessionState :=
  { s with players := { s.players with opponent := { s.players.opponent with holeCards := cards } } }

/-! ### ActionControls (src/frontend/src/components/ActionControls.tsx) -/

/-- Source `legalByType.get t`: the JS `Map` built from the legal-action list keeps
the last entry for a duplicated key. -/
def legalLookup (actions : List LegalAction) (t : ActionType) : Option LegalAction :=
  actions.foldl (fun acc a => if a.type = t then some a else acc) none

/-- Source `betLike`: `legalByType.get("raise") ?? legalByType.get("bet") ?? legalByType.get("all_in")`. -/
def betLike (actions : List LegalAction) : Option LegalAction :=
  ((legalLookup actions ActionType.raise).orElse
    (fun _ => legalLookup actions ActionType.bet)).orElse
    (fun _ => legalLookup actions ActionType.all_in)

/-- Source `min`: `betLike?.minAmount ?? 0`. -/
def betMin (actions : List LegalAction) : Int :=
  ((betLike actions).bind LegalAction.minAmount).getD 0

/-- Source `max`: `betLike?.maxAmount ?? min`. -/
def betMax (actions : List LegalAction) : Int :=
  ((betLike actions).bind LegalAction.maxAmount).getD (betMin actions)

/-- Source `canSize = Boolean(betLike)`. -/
def canSize (actions : List LegalAction) : Bool :=
  (betLike actions).isSome

/-- Source `clamp` of ActionControls.tsx:
`if (!canSize) return 0; return Math.max(min, Math.min(max, Math.floor(value)))`. -/
def clampAmount (actions : List LegalAction) (value : ℚ) : Int :=
  if canSize actions = false then 0
  else max (betMin actions) (min (betMax actions) ⌊value⌋)

/-- Source `shouldSendAmount`: the clicked type is bet, raise or all_in. -/
def isSizingType (t : ActionType) : Bool :=
  t = ActionType.bet ∨ t = ActionType.raise ∨ t = ActionType.all_in

/-- Source `onAction` of ActionControls.tsx, composed with the input `onChange`
handler: the amount state holds `clamp(typed)` after the user types
`typed`, and a click on `t` submits `clamp` of that state again (or no
amount for non-sizing types); disabled or illegal types submit nothing. -/
def onActionSubmit (actions : List LegalAction) (disabled : Bool) (typed : ℚ)
    (t : ActionType) : Option (ActionType × Option Int) :=
  if disabled || (legalLookup actions t).isNone then none
  else
    some (t,
      if isSizingType t then
        some (clampAmount actions ((clampAmount actions typed : Int) : ℚ))
      else none)

/-! ### useSession.nextHand (src/frontend/src/hooks/useSession.ts) -/

/-- The two modes of `useSession`. -/
inductive SessionMode where
  | api | mock
  deriving DecidableEq, Repr

/-- The operations the `nextHand` handler can invoke. -/
inductive NextHandCall where
  | socketRebuy | socketNextHand | httpRebuy | httpNextHand | mockCreateHand
  deriving DecidableEq, Repr

/-- The sequence of operations invoked by `useSession.nextHand` for a
non-null session: in api mode a connected socket is tried first
(`session.status === "session_complete" ? rebuy : nextHand`), falling back
to the matching HTTP call if the socket request rejects; without a
connected socket the HTTP call is made directly; in mock mode
`createNextMockHand` runs locally. -/
def nextHandCalls (mode : SessionMode) (connected : Bool) (socketCallFails : Bool)
    (status : SessionStatus) : List NextHandCall :=
  match mode with
  | SessionMode.api =>
    if connected then
      if status = SessionStatus.session_complete then
        if socketCallFails then [NextHandCall.socketRebuy, NextHandCall.httpRebuy]
        else [NextHandCall.socketRebuy]
      else
        if socketCallFails then [NextHandCall.socketNextHand, NextHandCall.httpNextHand]
        else [NextHandCall.socketNextHand]
    else
      if status = SessionStatus.session_complete then [NextHandCall.httpRebuy]
      else [NextHandCall.httpNextHand]
  | SessionMode.mock => [NextHandCall.mockCreateHand]

/-- Whether a call is one of the two rebuy operations. -/
def isRebuyCall : NextHandCall → Bool
  | NextHandCall.socketRebuy => true
  | NextHandCall.httpRebuy => true
  | _ => false

/-- Whether a call is one of the two remote next-hand operations. -/
def isNextHandCall : NextHandCall → Bool
  | NextHandCall.socketNextHand => true
  | NextHandCall.httpNextHand => true
  | _ => false

/-! ### Concrete fixtures used by witnesses and counterexamples -/

/-- A constant timestamp source for concrete evaluations. -/
def fixedIso : Int → String := fun _ => ("t")

/-- The initial mock session with fixed timestamps. -/
def mockInitial : SessionState := buildInitialMockState fixedIso

/-- A one-request pending map. -/
def pendingOne : PendingMap := [(("ws-1"), 5)]

/-- A parsed state message answering request `ws-1`. -/
def msgOk : SocketMessage :=
  { type := ("state"), requestId := some ("ws-1"), payload := some ("body") }

/-- The mock session one `nextHand` after the initial one: pot 3, legal
actions fold / call / raise, still in progress. -/
def mockSecondHand : SessionState := createNextMockHand mockInitial ("t")

/-- An in-progress state with a pot large enough for the mock opponent to
move all-in. -/
def bigPotState : SessionState := { mockInitial with pot := 50 }

/-- The initial mock state marked hand-complete (the terminal branch of
`applyMockAction`). -/
def completedState : SessionState := { mockInitial with status := SessionStatus.hand_complete }

/-- The legal-action set of the ActionControls unit test. -/
def testActions : List LegalAction :=
  [{ type := ActionType.check },
   { type := ActionType.bet, minAmount := some 2, maxAmount := some 5 },
   { type := ActionType.all_in, minAmount := some 20, maxAmount := some 20 }]

/-! ### Helper lemmas -/

theorem lookupPending_mem {st : PendingMap} {rid : String} {tid : Nat}
    (h : lookupPending st rid = some tid) : (rid, tid) ∈ st := by
  unfold lookupPending at h
  cases hf : st.find? (fun e => e.fst == rid) with
  | none => rw [hf] at h; simp at h
  | some e =>
    rw [hf] at h
    have hmem := List.mem_of_find?_eq_some hf
    have hp := List.find?_some hf
    cases e with
    | mk a b =>
      simp only [beq_iff_eq] at hp
      simp at h
      rw [hp, h] at hmem
      exact hmem

theorem erasePending_not_mem {st : PendingMap} {rid : String}
    (hnd : (st.map Prod.fst).Nodup) : rid ∉ (erasePending st rid).map Prod.fst := by
  induction st with
  | nil => simp [erasePending]
  | cons e rest ih =>
    rw [List.map_cons, List.nodup_cons] at hnd
    unfold erasePending
    rw [List.eraseP_cons]
    by_cases hp : (e.fst == rid) = true
    · rw [hp, cond_true]
      have he : e.fst = rid := by simpa using hp
      rw [← he]
      exact hnd.1
    · have hp2 : (e.fst == rid) = false := by simpa using hp
      rw [hp2, cond_false]
      rw [List.map_cons]
      intro hmem
      rcases List.mem_cons.mp hmem with h1 | h2
      · exact hp (by simp [h1])
      · exact ih hnd.2 h2

/-! ### Claim theorems -/

/-- Claim C1: `handleMessage` settles a pending request only when the raw
data is a string that parses to a message whose `requestId` equals that
request's identifier and is present in the pending map; non-string data,
unparseable JSON, a missing or empty request id, and an unknown request id
settle nothing and leave the map unchanged; and the matched entry is
removed from the pending map, with the delete strictly before the settling
operation in the effect trace. -/
theorem handleMessage_settles_only_matching (st : PendingMap) (raw : RawMessage)
    (hnd : (st.map Prod.fst).Nodup) :
    (∀ rid, rid ∈ settledIds (handleMessage st raw).snd →
      (∃ m, raw = RawMessage.parsed m ∧ m.requestId = some rid) ∧
      (∃ tid, (rid, tid) ∈ st) ∧
      rid ∉ (handleMessage st raw).fst.map Prod.fst ∧
      (∃ i j, i < j ∧
        (handleMessage st raw).snd.get? i = some (SocketOp.pendingDelete rid) ∧
        (∃ op, (handleMessage st raw).snd.get? j = some op ∧ settleId op = some rid))) ∧
    (handleMessage st RawMessage.notString = (st, [])) ∧
    (handleMessage st RawMessage.unparseable = (st, [])) ∧
    (∀ m, raw = RawMessage.parsed m →
      (m.requestId = none ∨ m.requestId = some ("") ∨
        (∀ rid, m.requestId = some rid → lookupPending st rid = none)) →
      handleMessage st raw = (st, [])) := by
  refine ⟨?_, rfl, rfl, ?_⟩
  · intro rid hrid
    cases raw with
    | notString => simp [handleMessage, settledIds] at hrid
    | unparseable => simp [handleMessage, settledIds] at hrid
    | parsed m =>
      cases hm : m.requestId with
      | none => simp [handleMessage, hm, settledIds] at hrid
      | some rid0 =>
        by_cases hne : rid0 = ("")
        · simp [handleMessage, hm, hne, settledIds] at hrid
        · cases hl : lookupPending st rid0 with
          | none => simp [handleMessage, hm, hne, hl, settledIds] at hrid
          | some tid =>
            have hr0 : rid = rid0 := by
              by_cases ht : m.type = ("error") <;>
                simpa [handleMessage, hm, hne, hl, ht, settledIds, settleId] using hrid
            subst hr0
            refine ⟨⟨m, rfl, hm⟩, ⟨tid, lookupPending_mem hl⟩, ?_, ?_⟩
            · by_cases ht : m.type = ("error") <;>
                simpa [handleMessage, hm, hne, hl, ht] using erasePending_not_mem hnd
            · by_cases ht : m.type = ("error")
              · exact ⟨0, 2, by omega, by simp [handleMessage, hm, hne, hl, ht],
                  ⟨SocketOp.promiseReject rid (m.message.getD ("WebSocket request failed."))
                      (m.status.getD 500),
                    by simp [handleMessage, hm, hne, hl, ht], rfl⟩⟩
              · exact ⟨0, 2, by omega, by simp [handleMessage, hm, hne, hl, ht],
                  ⟨SocketOp.promiseResolve rid m.payload,
                    by simp [handleMessage, hm, hne, hl, ht], rfl⟩⟩
  · intro m heq hcond
    subst heq
    rcases hcond with hnone | hempty | hunknown
    · simp [handleMessage, hnone]
    · simp [handleMessage, hempty]
    · cases hm : m.requestId with
      | none => simp [handleMessage, hm]
      | some rid0 =>
        by_cases hne : rid0 = ("")
        · simp [handleMessage, hm, hne]
        · simp [handleMessage, hm, hne, hunknown rid0 hm]

/-- Witness for C1: with one pending request `ws-1` and a parsed reply
carrying that id, the reply indeed settles an entry present in the map. -/
theorem handleMessage_settles_only_matching_witness :
    ∃ tid, ((("ws-1") : String), tid) ∈ pendingOne :=
  ((handleMessage_settles_only_matching pendingOne (RawMessage.parsed msgOk)
      (by decide)).1 (("ws-1")) (by decide)).2.1

theorem rejectAllPending_spec (st : PendingMap) (message : String) (status : Int) :
    (rejectAllPending st message status).fst = [] ∧
    ∀ e ∈ st,
      SocketOp.timeoutClear e.snd ∈ (rejectAllPending st message status).snd ∧
      SocketOp.promiseReject e.fst message status ∈ (rejectAllPending st message status).snd := by
  induction st with
  | nil => simp [rejectAllPending]
  | cons e rest ih =>
    refine ⟨by simpa [rejectAllPending] using ih.1, ?_⟩
    intro f hf
    rcases List.mem_cons.mp hf with h1 | h2
    · subst h1
      constructor <;> simp [rejectAllPending]
    · have h3 := ih.2 f h2
      constructor <;> simp [rejectAllPending, h3.1, h3.2]

/-- Claim C2: both on the transport `close` event and on an explicit
`close()` call, every request still awaiting a response is rejected with a
status-0 disconnect `ApiError`, its timeout is cleared, and the pending map
is left empty. -/
theorem socket_close_rejects_all_pending (st : PendingMap) :
    (onSocketClose st).fst = [] ∧
    (closeSocket st).fst = [] ∧
    (∀ e ∈ st,
      SocketOp.timeoutClear e.snd ∈ (onSocketClose st).snd ∧
      SocketOp.promiseReject e.fst ("WebSocket disconnected.") 0 ∈ (onSocketClose st).snd) ∧
    (∀ e ∈ st,
      SocketOp.timeoutClear e.snd ∈ (closeSocket st).snd ∧
      SocketOp.promiseReject e.fst ("WebSocket closed.") 0 ∈ (closeSocket st).snd) := by
  have h1 := rejectAllPending_spec st ("WebSocket disconnected.") 0
  have h2 := rejectAllPending_spec st ("WebSocket closed.") 0
  refine ⟨h1.1, by simpa [closeSocket] using h2.1, ?_, ?_⟩
  · intro e he
    exact ⟨(h1.2 e he).1, (h1.2 e he).2⟩
  · intro e he
    constructor
    · simp only [closeSocket, List.mem_append]
      exact Or.inl (h2.2 e he).1
    · simp only [closeSocket, List.mem_append]
      exact Or.inl (h2.2 e he).2

/-- Witness for C2: for the one-request pending map, the disconnect path
rejects request `ws-1` with status 0 and clears its timeout. -/
theorem socket_close_rejects_all_pending_witness :
    SocketOp.timeoutClear 5 ∈ (onSocketClose pendingOne).snd ∧
    SocketOp.promiseReject (("ws-1")) (("WebSocket disconnected.")) 0 ∈
      (onSocketClose pendingOne).snd :=
  (socket_close_rejects_all_pending pendingOne).2.2.1 ((("ws-1"), 5)) (by decide)

/-- Claim C6: `PokerApiClient.request` throws an `ApiError` carrying exactly
the response's numeric status whenever `ok` is false, and returns the
parsed body unchanged (throwing nothing) whenever `ok` is true. -/
theorem request_status_faithful (T : Type) (resp : HttpResponse T) :
    (resp.ok = false →
      ∃ e, request resp = Except.error e ∧ e.status = resp.status ∧ e.name = apiErrorName) ∧
    (resp.ok = true → request resp = Except.ok resp.body) := by
  constructor
  · intro hok
    refine ⟨mkApiError (("API request failed (") ++ toString resp.status ++ (")")) resp.status,
      ?_, rfl, rfl⟩
    simp [request, hok]
  · intro hok
    simp [request, hok]

/-- Witness for C6: a 404 response yields an `ApiError` with status 404,
and an ok response returns its body. -/
theorem request_status_faithful_witness :
    (∃ e, request ({ ok := false, status := 404, body := (0 : Int) } : HttpResponse Int) =
        Except.error e ∧ e.status = 404 ∧ e.name = apiErrorName) ∧
    request ({ ok := true, status := 200, body := (7 : Int) } : HttpResponse Int) =
      Except.ok (7 : Int) :=
  ⟨(request_status_faithful Int { ok := false, status := 404, body := (0 : Int) }).1 rfl,
   (request_status_faithful Int { ok := true, status := 200, body := (7 : Int) }).2 rfl⟩

/-- Claim C3: `applyMockAction` conserves chips on in-progress states — the
two stacks plus the pot sum to the same total before and after, for every
action type and amount. -/
theorem applyMockAction_conserves_chips (s : SessionState) (t : ActionType)
    (amt : Option Int) (now : String) (h : s.status = SessionStatus.in_progress) :
    chipTotal (applyMockAction s t amt now) = chipTotal s := by
  unfold applyMockAction
  rw [if_neg (by simp [h])]
  dsimp only
  split_ifs <;> simp [chipTotal] <;> omega

/-- Witness for C3: chips are conserved when checking in the initial mock
state. -/
theorem applyMockAction_conserves_chips_witness :
    chipTotal (applyMockAction mockInitial ActionType.check none ("t")) = chipTotal mockInitial :=
  applyMockAction_conserves_chips mockInitial ActionType.check none ("t") rfl

/-- Claim C7: starting from non-negative stacks, both stacks stay
non-negative after `applyMockAction`, for every action type and amount
(negative or oversized included), because each deduction is capped at the
acting player's stack. -/
theorem applyMockAction_stacks_nonneg (s : SessionState) (t : ActionType)
    (amt : Option Int) (now : String)
    (hh : 0 ≤ s.players.human.stack) (ho : 0 ≤ s.players.opponent.stack) :
    0 ≤ (applyMockAction s t amt now).players.human.stack ∧
    0 ≤ (applyMockAction s t amt now).players.opponent.stack := by
  unfold applyMockAction
  by_cases h : s.status ≠ SessionStatus.in_progress
  · rw [if_pos h]
    exact ⟨hh, ho⟩
  · rw [if_neg h]
    dsimp only
    split_ifs <;> refine ⟨?_, ?_⟩ <;> simp <;> omega

/-- Witness for C7: stacks remain non-negative after an oversized all-in
attempt in the initial mock state. -/
theorem applyMockAction_stacks_nonneg_witness :
    0 ≤ (applyMockAction mockInitial ActionType.all_in (some 100000) ("t")).players.human.stack ∧
    0 ≤ (applyMockAction mockInitial ActionType.all_in (some 100000) ("t")).players.opponent.stack :=
  applyMockAction_stacks_nonneg mockInitial ActionType.all_in (some 100000) ("t")
    (by decide) (by decide)

/-- Counterexample to claim C5 as stated: on a state that is not in
progress (here hand-complete), `applyMockAction` returns the feed
unchanged, so no event — let alone between one and three — is appended. -/
theorem applyMockAction_no_append_when_complete :
    completedState.status = SessionStatus.hand_complete ∧
    ¬ (completedState.actionFeed.length + 1 ≤
        (applyMockAction completedState ActionType.check none ("t")).actionFeed.length) := by
  refine ⟨rfl, ?_⟩
  have h1 : completedState.actionFeed.length = 4 := rfl
  have h2 : (applyMockAction completedState ActionType.check none ("t")).actionFeed.length = 4 := rfl
  omega

/-- Claim C5 (amended): the event log is append-only — the output feed of
`applyMockAction` always extends the input feed, element for element
unchanged; when the input state is in progress between one and three
events (in fact two or three) are appended, and on any other state the
feed is returned unchanged. -/
theorem applyMockAction_feed_append_only (s : SessionState) (t : ActionType)
    (amt : Option Int) (now : String) :
    (∃ tail, (applyMockAction s t amt now).actionFeed = s.actionFeed ++ tail) ∧
    (s.status = SessionStatus.in_progress →
      s.actionFeed.length + 1 ≤ (applyMockAction s t amt now).actionFeed.length ∧
      (applyMockAction s t amt now).actionFeed.length ≤ s.actionFeed.length + 3) ∧
    (s.status ≠ SessionStatus.in_progress →
      (applyMockAction s t amt now).actionFeed = s.actionFeed) := by
  by_cases h : s.status = SessionStatus.in_progress
  · unfold applyMockAction
    rw [if_neg (by simp [h])]
    dsimp only
    refine ⟨?_, fun _ => ?_, fun hc => absurd h hc⟩
    · split_ifs <;> (simp only [List.append_assoc]; exact ⟨_, rfl⟩)
    · split_ifs <;> refine ⟨?_, ?_⟩ <;> simp
  · unfold applyMockAction
    rw [if_pos (by simp [h])]
    exact ⟨⟨[], by simp⟩, fun hc => absurd hc h, fun _ => rfl⟩

/-- Witness for C5 (amended): checking in the in-progress initial mock
state appends events onto the unchanged feed. -/
theorem applyMockAction_feed_append_only_witness :
    mockInitial.actionFeed.length + 1 ≤
      (applyMockAction mockInitial ActionType.check none ("t")).actionFeed.length ∧
    (applyMockAction mockInitial ActionType.check none ("t")).actionFeed.length ≤
      mockInitial.actionFeed.length + 3 :=
  (applyMockAction_feed_append_only mockInitial ActionType.check none ("t")).2.1 rfl

/-- Counterexample to claim C4 as stated: the state reached by
`createNextMockHand` from the initial mock state is in progress with pot 3
and legal actions fold / call / raise, yet `pickMockOpponentAction`
chooses check, which is not in that legal-action set. -/
theorem pickMockOpponentAction_illegal_choice :
    mockSecondHand.status = SessionStatus.in_progress ∧
    (pickMockOpponentAction mockSecondHand).fst ∉
      mockSecondHand.legalActions.map LegalAction.type := by
  constructor
  · rfl
  · decide

/-- Claim C4 (amended): the mock fallback opponent policy always picks
check, call 4, or all-in capped at the opponent stack, selected purely by
pot size (check for pots up to 20, call up to 40, otherwise all-in); it
never consults the state's legal-action set, so membership in it is not
guaranteed. -/
theorem pickMockOpponentAction_shape (s : SessionState)
    (h : s.status = SessionStatus.in_progress) :
    ((pickMockOpponentAction s).fst = ActionType.check ∧
        (pickMockOpponentAction s).snd = none ∨
      (pickMockOpponentAction s).fst = ActionType.call ∧
        (pickMockOpponentAction s).snd = some 4 ∨
      (pickMockOpponentAction s).fst = ActionType.all_in ∧
        (pickMockOpponentAction s).snd = some (min 36 s.players.opponent.stack)) ∧
    ((pickMockOpponentAction s).fst = ActionType.check → s.pot ≤ 20) ∧
    ((pickMockOpponentAction s).fst = ActionType.call → 20 < s.pot ∧ s.pot ≤ 40) ∧
    ((pickMockOpponentAction s).fst = ActionType.all_in → 40 < s.pot) := by
  unfold pickMockOpponentAction
  rw [if_neg (by simp [h])]
  split_ifs with h1 h2 <;> simp_all

/-- Witness for C4 (amended): with a pot of 50 the mock opponent moves
all-in, and the amended bound on the pot holds. -/
theorem pickMockOpponentAction_shape_witness :
    40 < bigPotState.pot :=
  (pickMockOpponentAction_shape bigPotState rfl).2.2.2 (by decide)

theorem pixelCard_hidden (c : Option String) (size : CardSize) :
    pixelCard c true size = hiddenCardMarkup size := rfl

/-- Claim C8: when the opponent's cards are not flagged visible, the street
is not showdown, and the session is in progress, the opponent panel App
renders is identical for any two opponent hole-card values — the hidden
`PixelCard` branch ignores the card, so the markup leaks nothing about the
hidden cards. -/
theorem appOpponentPanel_independent_of_hidden_cards (s : SessionState)
    (cs1 cs2 : List String)
    (hvis : s.players.opponent.cardsVisible = false)
    (hst : s.street ≠ Street.showdown)
    (hstat : s.status = SessionStatus.in_progress) :
    appOpponentPanel (withOpponentHoleCards s cs1) =
      appOpponentPanel (withOpponentHoleCards s cs2) := by
  have hv : ∀ cs, opponentVisible (withOpponentHoleCards s cs) = false := by
    intro cs
    simp [opponentVisible, withOpponentHoleCards, showNextHand, hvis, hstat, hst]
  simp only [appOpponentPanel, hv]
  simp [playerPanel, withOpponentHoleCards, pixelCard_hidden]

/-- Witness for C8: in the initial mock state the opponent panel renders
identically for the real hidden cards and a decoy pair. -/
theorem appOpponentPanel_independent_witness :
    appOpponentPanel (withOpponentHoleCards mockInitial (["Kd", "9c"])) =
      appOpponentPanel (withOpponentHoleCards mockInitial (["2h", "3s"])) :=
  appOpponentPanel_independent_of_hidden_cards mockInitial (["Kd", "9c"]) (["2h", "3s"])
    rfl (by decide) rfl

/-- Counterexample to claim C9 as stated: in mock mode the handler, for a
session-complete session, performs only the local `createNextMockHand` —
it invokes no rebuy operation (neither over a socket nor over HTTP). -/
theorem nextHand_mock_mode_no_rebuy :
    (nextHandCalls SessionMode.mock false false SessionStatus.session_complete).any
        isRebuyCall = false ∧
    nextHandCalls SessionMode.mock false false SessionStatus.session_complete =
      [NextHandCall.mockCreateHand] := by
  decide

/-- Claim C9 (amended): in API mode, for a session-complete session the
`nextHand` handler invokes only rebuy operations — over the socket when
connected (plus the HTTP fallback if the socket call rejects), otherwise
by POST — and never a next-hand operation; for any other status it
invokes only next-hand operations and never rebuy.  (In mock mode the
handler instead builds the next hand locally and performs neither remote
operation.) -/
theorem nextHand_api_mode_selects_rebuy (connected socketCallFails : Bool)
    (status : SessionStatus) :
    (status = SessionStatus.session_complete →
      nextHandCalls SessionMode.api connected socketCallFails status ≠ [] ∧
      (∀ c ∈ nextHandCalls SessionMode.api connected socketCallFails status,
        isRebuyCall c = true) ∧
      (connected = true →
        NextHandCall.socketRebuy ∈
          nextHandCalls SessionMode.api connected socketCallFails status) ∧
      (connected = false →
        nextHandCalls SessionMode.api connected socketCallFails status =
          [NextHandCall.httpRebuy])) ∧
    (status ≠ SessionStatus.session_complete →
      nextHandCalls SessionMode.api connected socketCallFails status ≠ [] ∧
      (∀ c ∈ nextHandCalls SessionMode.api connected socketCallFails status,
        isNextHandCall c = true)) := by
  cases connected <;> cases socketCallFails <;> cases status <;> decide

/-- Witness for C9 (amended): with no connected socket and a
session-complete session, exactly the HTTP rebuy is invoked. -/
theorem nextHand_api_mode_selects_rebuy_witness :
    nextHandCalls SessionMode.api false false SessionStatus.session_complete =
      [NextHandCall.httpRebuy] :=
  (((nextHand_api_mode_selects_rebuy false false SessionStatus.session_complete).1 rfl).2.2.2) rfl

theorem clampAmount_int (actions : List LegalAction) (n : Int) :
    clampAmount actions ((n : Int) : ℚ) =
      if canSize actions = false then 0
      else max (betMin actions) (min (betMax actions) n) := by
  unfold clampAmount
  rw [Int.floor_intCast]

theorem clampAmount_idem (actions : List LegalAction) (v : ℚ) :
    clampAmount actions ((clampAmount actions v : Int) : ℚ) = clampAmount actions v := by
  rw [clampAmount_int]
  by_cases h : canSize actions = false
  · simp [clampAmount, h]
  · rw [if_neg h]
    unfold clampAmount
    rw [if_neg h]
    omega

theorem betLike_isSome_of_sizing (actions : List LegalAction) (t : ActionType)
    (hsz : isSizingType t = true) (h : (legalLookup actions t).isSome = true) :
    (betLike actions).isSome = true := by
  unfold isSizingType at hsz
  simp only [decide_eq_true_eq] at hsz
  unfold betLike
  rcases hsz with h1 | h2 | h3
  · subst h1
    cases hr : legalLookup actions ActionType.raise with
    | none =>
      cases hb : legalLookup actions ActionType.bet with
      | none => rw [hb] at h; simp at h
      | some a => simp [hr, hb, Option.orElse]
    | some a => simp [hr, Option.orElse]
  · subst h2
    cases hr : legalLookup actions ActionType.raise with
    | none => rw [hr] at h; simp at h
    | some a => simp [hr, Option.orElse]
  · subst h3
    cases hr : legalLookup actions ActionType.raise with
    | none =>
      cases hb : legalLookup actions ActionType.bet with
      | none =>
        cases ha : legalLookup actions ActionType.all_in with
        | none => rw [ha] at h; simp at h
        | some a => simp [hr, hb, ha, Option.orElse]
      | some a => simp [hr, hb, Option.orElse]
    | some a => simp [hr, Option.orElse]

/-- Claim C10: ActionControls never submits an out-of-range amount — a
bet/raise/all-in submission carries exactly
`max(min, min(max, floor(typed)))` for the selected sizing action's
bounds, fold/check/call submissions carry no amount, and an action type
absent from the legal-action set is never submitted at all. -/
theorem actionControls_submits_clamped (actions : List LegalAction) (disabled : Bool)
    (typed : ℚ) (t : ActionType) :
    ((legalLookup actions t = none) → onActionSubmit actions disabled typed t = none) ∧
    (∀ amt, onActionSubmit actions disabled typed t = some (t, amt) →
      (isSizingType t = true →
        amt = some (max (betMin actions) (min (betMax actions) ⌊typed⌋))) ∧
      (isSizingType t = false → amt = none)) := by
  constructor
  · intro hnone
    simp [onActionSubmit, hnone]
  · intro amt hsome
    by_cases hd : (disabled || (legalLookup actions t).isNone) = true
    · unfold onActionSubmit at hsome
      rw [if_pos hd] at hsome
      exact absurd hsome (by simp)
    · unfold onActionSubmit at hsome
      rw [if_neg hd] at hsome
      have hleg : (legalLookup actions t).isSome = true := by
        cases hle : legalLookup actions t with
        | none => exact absurd (by simp [hle]) hd
        | some a => simp [hle]
      constructor
      · intro hsz
        have hcs : canSize actions = true := by
          simpa [canSize] using betLike_isSome_of_sizing actions t hsz hleg
        have hamt : amt = some (clampAmount actions ((clampAmount actions typed : Int) : ℚ)) := by
          rw [hsz] at hsome
          simp at hsome
          exact hsome.symm
        rw [hamt, clampAmount_idem]
        unfold clampAmount
        rw [if_neg (by simp [hcs])]
      · intro hsz
        rw [hsz] at hsome
        simp at hsome
        exact hsome.symm


/-- Witness for C10: with the unit test's legal actions, clicking fold
(absent from the set) submits nothing. -/
theorem actionControls_submits_clamped_witness :
    onActionSubmit testActions false ((99 : Int) : ℚ) ActionType.fold = none :=
  (actionControls_submits_clamped testActions false ((99 : Int) : ℚ) ActionType.fold).1 rfl

end PokerAgent
